import Mathlib

/-!
Verification development for the NYC pest-control lead monitor
(`lead_monitor.py`).  The Python source is shallowly embedded: strings are
`List Char`, the JSON seen-leads store is a structure of per-source identifier
lists, each `check_*` adapter is a state transformer over a run state that
records the file contents and an event trace (load / fetch / save / notify),
and exceptions raised by the store write are modelled with `Except`
(`save_seen_leads` has no handler in the source, so a raise propagates).
Network fetches are abstracted to their post-filter results, supplied by an
environment: the dedup, trimming, persistence and notification logic — the
subject of the claims — is translated line by line from the source.
-/

namespace LeadMonitor

/-! ## Python string primitives used by the source -/

/-- Python `sub in s` substring test (`True` for the empty substring). -/
def strContains : List Char → List Char → Bool
  | [], needle => needle.isEmpty
  | c :: t, needle => needle.isPrefixOf (c :: t) || strContains t needle

/-- Python `s.upper()` (ASCII, as all data here is). -/
def pyUpper (s : List Char) : List Char := s.map Char.toUpper

/-- Drop leading characters satisfying `p`. -/
def stripLeft (p : Char → Bool) : List Char → List Char
  | [] => []
  | c :: t => if p c then stripLeft p t else c :: t

/-- Python `s.strip(chars)`: drop characters satisfying `p` from both ends. -/
def pyStripWith (p : Char → Bool) (s : List Char) : List Char :=
  ((stripLeft p ((stripLeft p s).reverse)).reverse)

/-- Python `s.strip()` (whitespace). -/
def pyStrip (s : List Char) : List Char :=
  pyStripWith (fun c => c.isWhitespace) s

/-- Python `s.strip(', ')` as used when assembling owner mailing addresses. -/
def pyStripCommaSpace (s : List Char) : List Char :=
  pyStripWith (fun c => c == ',' || c == ' ') s

/-- Python `s.split()`: split on whitespace runs, no empty words. -/
def splitWs (s : List Char) : List (List Char) :=
  let step := fun (p : List (List Char) × List Char) (c : Char) =>
    if c.isWhitespace then
      (if p.2.isEmpty then p.1 else p.1 ++ [p.2.reverse], ([] : List Char))
    else (p.1, c :: p.2)
  let r := s.foldl step ([], [])
  if r.2.isEmpty then r.1 else r.1 ++ [r.2.reverse]

/-- Python `' '.join(ws)`. -/
def joinSpace (ws : List (List Char)) : List Char :=
  List.intercalate [' '] ws

/-- Python `', '.join(filter(None, parts))`. -/
def joinCommaNonempty (parts : List (List Char)) : List Char :=
  List.intercalate (", ".toList) (parts.filter (fun p => !p.isEmpty))

/-- Python `s.zfill(w)` on the digit keys handled here (no sign handling:
the source only applies it to BBL digit strings). -/
def pyZfill (w : Nat) (s : List Char) : List Char :=
  List.replicate (w - s.length) '0' ++ s

/-- Python `int(s)` on a string of decimal digits. -/
def intOfDigits (s : List Char) : Nat :=
  s.foldl (fun acc c => 10 * acc + (c.toNat - 48)) 0

/-- Python `l[-n:]` for the positive literal trim amounts of the source
(`n = 2000` or `n = 1000`); `l[-0:]` would be the whole list. -/
def lastN (n : Nat) (l : List α) : List α :=
  if n = 0 then l else l.drop (l.length - n)

/-! ## The seen-leads store (`seen_leads.json`) and the run model -/

/-- The seven sources tracked by the store. -/
inductive Source
  | hpd | dohmh | c311 | dob | ecb | craigslist | reddit
deriving DecidableEq

/-- Observable events of one run: each adapter loads the store, fetches its
feed, and (normally) saves the store; `main` ends with `send_email_alert`,
whose actual delivery attempt is the `notify` event. -/
inductive Event
  | load (s : Source) | fetch (s : Source) | save (s : Source) | notify
deriving DecidableEq

/-- Contents of `seen_leads.json`: one identifier list per source
(`load_seen_leads` defaults every key to `[]`). -/
structure SeenLeads where
  hpd : List String
  dohmh : List String
  reddit : List String
  c311 : List String
  dob : List String
  ecb : List String
  craigslist : List String
deriving DecidableEq

/-- The run's observable state: the current file contents, how many store
writes have been attempted (to index injected write failures), and the
event trace. -/
structure RunState where
  file : SeenLeads
  saveCount : Nat
  trace : List Event
deriving DecidableEq

def addEvents (st : RunState) (es : List Event) : RunState :=
  { st with trace := st.trace ++ es }

/-- Environment of one run: initial file contents, the per-adapter candidate
identifiers (each adapter's records after its fetch, keyword filter and
identifier extraction — per-partition fetch errors just shrink these lists,
as the source catches them inside the partition loop), the HTTP status seen
by the single-query DOB and ECB adapters (they return early on non-200),
and which store-write attempts raise an I/O error. -/
structure Env where
  initFile : SeenLeads
  hpdIds : List String
  dohmhIds : List String
  c311Ids : List String
  dobIds : List String
  ecbIds : List String
  craigslistIds : List String
  redditIds : List String
  dobStatus : Nat
  ecbStatus : Nat
  saveFails : Nat → Bool

/-- Model of `save_seen_leads(seen)`: `open(SEEN_FILE,'w'); json.dump(seen,f)`.
There is no `try` in the source around any of its call sites, so a raise
(modelled by `saveFails`) propagates: the `Except.error` carries the state
at the moment of the raise (the file is unchanged, no save event). -/
def save_seen_leads (env : Env) (src : Source) (seen : SeenLeads)
    (st : RunState) : Except RunState RunState :=
  if env.saveFails st.saveCount then
    .error { st with saveCount := st.saveCount + 1 }
  else
    .ok { file := seen, saveCount := st.saveCount + 1,
          trace := st.trace ++ [Event.save src] }

/-- The per-record dedup loop shared by HPD/311/DOB/ECB/Reddit:
`if vid and vid not in seen[key]: ... collect ...; seen[key].append(vid)`.
Returns (new leads in discovery order, updated seen list). -/
def dedupAppendNE (seenIds : List String) (cands : List String) :
    List String × List String :=
  cands.foldl
    (fun acc vid =>
      if vid ≠ "" ∧ vid ∉ acc.2 then (acc.1 ++ [vid], acc.2 ++ [vid]) else acc)
    ([], seenIds)

/-- The dedup loop of DOHMH/Craigslist, whose membership test has no
nonempty guard: `if uid not in seen[key]: ...`. -/
def dedupAppendAll (seenIds : List String) (cands : List String) :
    List String × List String :=
  cands.foldl
    (fun acc vid =>
      if vid ∉ acc.2 then (acc.1 ++ [vid], acc.2 ++ [vid]) else acc)
    ([], seenIds)

/-- Model of `check_hpd_violations()`: load the store, fetch/filter per borough
(partition failures caught inside the loop), dedup-append new violation ids,
trim `seen['hpd']` to its last 2000 entries, save. -/
def check_hpd_violations (env : Env) (st : RunState) :
    Except RunState (List String × RunState) :=
  let seen := st.file
  let st := addEvents st [Event.load Source.hpd, Event.fetch Source.hpd]
  let p := dedupAppendNE seen.hpd env.hpdIds
  let seen := { seen with hpd := lastN 2000 p.2 }
  match save_seen_leads env Source.hpd seen st with
  | .error e => .error e
  | .ok st => .ok (p.1, st)

/-- Model of `check_dohmh_violations()`: composite ids, no nonempty guard on the
membership test, trim to last 2000, save. -/
def check_dohmh_violations (env : Env) (st : RunState) :
    Except RunState (List String × RunState) :=
  let seen := st.file
  let st := addEvents st [Event.load Source.dohmh, Event.fetch Source.dohmh]
  let p := dedupAppendAll seen.dohmh env.dohmhIds
  let seen := { seen with dohmh := lastN 2000 p.2 }
  match save_seen_leads env Source.dohmh seen st with
  | .error e => .error e
  | .ok st => .ok (p.1, st)

/-- Model of `check_311_complaints()`: trim to last 2000, save. -/
def check_311_complaints (env : Env) (st : RunState) :
    Except RunState (List String × RunState) :=
  let seen := st.file
  let st := addEvents st [Event.load Source.c311, Event.fetch Source.c311]
  let p := dedupAppendNE seen.c311 env.c311Ids
  let seen := { seen with c311 := lastN 2000 p.2 }
  match save_seen_leads env Source.c311 seen st with
  | .error e => .error e
  | .ok st => .ok (p.1, st)

/-- Model of `check_dob_violations()`: a single query; on a non-200 status the source
does `return []` before the trim and save lines.  Otherwise trim `seen['dob']`
to last 2000 and save. -/
def check_dob_violations (env : Env) (st : RunState) :
    Except RunState (List String × RunState) :=
  let seen := st.file
  let st := addEvents st [Event.load Source.dob, Event.fetch Source.dob]
  if env.dobStatus ≠ 200 then .ok ([], st)
  else
    let p := dedupAppendNE seen.dob env.dobIds
    let seen := { seen with dob := lastN 2000 p.2 }
    match save_seen_leads env Source.dob seen st with
    | .error e => .error e
    | .ok st => .ok (p.1, st)

/-- Model of `check_ecb_violations()`: same shape as DOB (early `return []` on
non-200), trim to last 2000, save. -/
def check_ecb_violations (env : Env) (st : RunState) :
    Except RunState (List String × RunState) :=
  let seen := st.file
  let st := addEvents st [Event.load Source.ecb, Event.fetch Source.ecb]
  if env.ecbStatus ≠ 200 then .ok ([], st)
  else
    let p := dedupAppendNE seen.ecb env.ecbIds
    let seen := { seen with ecb := lastN 2000 p.2 }
    match save_seen_leads env Source.ecb seen st with
    | .error e => .error e
    | .ok st => .ok (p.1, st)

/-- Model of `check_craigslist()`: per-feed RSS fetch (failures caught per feed),
post ids from the link regex, no nonempty guard (the regex group is nonempty),
trim `seen['craigslist']` to its last 1000 entries, save. -/
def check_craigslist (env : Env) (st : RunState) :
    Except RunState (List String × RunState) :=
  let seen := st.file
  let st := addEvents st [Event.load Source.craigslist, Event.fetch Source.craigslist]
  let p := dedupAppendAll seen.craigslist env.craigslistIds
  let seen := { seen with craigslist := lastN 1000 p.2 }
  match save_seen_leads env Source.craigslist seen st with
  | .error e => .error e
  | .ok st => .ok (p.1, st)

/-- Model of `check_reddit()`: per-subreddit fetch, keyword and NYC-relevance gates
(posts failing them touch nothing, so they are dropped from the candidate
list), trim `seen['reddit']` to its last 1000 entries, save. -/
def check_reddit (env : Env) (st : RunState) :
    Except RunState (List String × RunState) :=
  let seen := st.file
  let st := addEvents st [Event.load Source.reddit, Event.fetch Source.reddit]
  let p := dedupAppendNE seen.reddit env.redditIds
  let seen := { seen with reddit := lastN 1000 p.2 }
  match save_seen_leads env Source.reddit seen st with
  | .error e => .error e
  | .ok st => .ok (p.1, st)

/-! ## `send_email_alert` -/

/-- The delivered document, abstracted to its observable structure: the
total in the subject and headline, and which leads each section renders. -/
structure EmailMessage (α : Type) where
  subjectTotal : Nat
  hpdShown : List α
  dobShown : List α
  ecbShown : List α
  dohmhShown : List α
  c311Shown : List α
  craigslistShown : List α
  redditShown : List α
deriving DecidableEq

/-- Model of `send_email_alert(hpd, dohmh, c311, dob, ecb, craigslist, reddit)`:
`total` sums all seven list lengths; `if total == 0: return` with no request;
otherwise the HTML renders `hpd[:15]`, `dob[:15]`, `ecb[:15]`, `dohmh[:15]`,
`c311[:15]`, `craigslist[:10]`, `reddit[:10]`, the subject carries `total`,
and the SendGrid POST is attempted (`some` = an attempt is made; a non-202
response or a raise inside the `try` is only logged). -/
def send_email_alert {α : Type} (hpd dohmh c311 dob ecb craigslist reddit : List α) :
    Option (EmailMessage α) :=
  let total := hpd.length + dohmh.length + c311.length + dob.length +
    ecb.length + craigslist.length + reddit.length
  if total = 0 then none
  else some ⟨total, hpd.take 15, dob.take 15, ecb.take 15, dohmh.take 15,
    c311.take 15, craigslist.take 10, reddit.take 10⟩

/-! ## `main()` -/

/-- The observable effect of the `send_email_alert` call at the end of
`main`: a delivery attempt happens exactly when the alert is built. -/
def notifyStep (st : RunState) (o : Option (EmailMessage String)) : RunState :=
  match o with
  | none => st
  | some _ => addEvents st [Event.notify]

/-- Model of `main()`: the seven adapters in source order, then `send_email_alert`.
No handler wraps the calls, so an `Except.error` from a store write aborts
everything after it. -/
def main (env : Env) : Except RunState (RunState × Nat) := do
  let st : RunState := ⟨env.initFile, 0, []⟩
  let (hpd, st) ← check_hpd_violations env st
  let (dohmh, st) ← check_dohmh_violations env st
  let (c311, st) ← check_311_complaints env st
  let (dob, st) ← check_dob_violations env st
  let (ecb, st) ← check_ecb_violations env st
  let (craigslist, st) ← check_craigslist env st
  let (reddit, st) ← check_reddit env st
  let total := hpd.length + dohmh.length + c311.length + dob.length +
    ecb.length + craigslist.length + reddit.length
  let st := notifyStep st (send_email_alert hpd dohmh c311 dob ecb craigslist reddit)
  return (st, total)

/-- The event trace a run leaves behind, whether it completes or aborts. -/
def runTraceOf (env : Env) : List Event :=
  match main env with
  | .ok (st, _) => st.trace
  | .error st => st.trace

/-- Whether the run aborted with an uncaught exception. -/
def runAborted (env : Env) : Bool :=
  match main env with
  | .ok _ => false
  | .error _ => true

def isSaveEvent : Event → Bool
  | .save _ => true
  | _ => false

/-! ## Owner lookup (`lookup_owner_from_bbl`) -/

/-- BBL decomposition, the first lines of `lookup_owner_from_bbl`:
`bbl_clean = str(bbl_str).zfill(10); boro = bbl_clean[0];
block = int(bbl_clean[1:6]); lot = int(bbl_clean[6:10])`
(the source immediately re-renders block and lot with `str`, which strips
their leading zeros; here they are kept as the parsed numbers). -/
def bblDecompose (bbl : List Char) : Char × Nat × Nat :=
  let t := pyZfill 10 bbl
  (t.headD '0', intOfDigits ((t.drop 1).take 5), intOfDigits ((t.drop 6).take 4))

/-- One record of the MapPLUTO or property-assessment dataset, restricted to
the fields the source reads. -/
structure PlutoRecord where
  ownername : List Char
  address : List Char
  city : List Char
  state : List Char
  zipcode : List Char
deriving DecidableEq

/-- One dataset response: HTTP status and decoded record list. -/
structure SodaResponse where
  status : Nat
  records : List PlutoRecord
deriving DecidableEq

/-- The mailing-address string built for a hit:
`f"{address.strip()}, {city.strip()}, {state.strip()} {zipcode.strip()}".strip(', ')`. -/
def plutoAddr (rec : PlutoRecord) : List Char :=
  pyStripCommaSpace (pyStrip rec.address ++ ", ".toList ++ pyStrip rec.city ++
    ", ".toList ++ pyStrip rec.state ++ " ".toList ++ pyStrip rec.zipcode)

/-- One attempt against one dataset: `if r.status_code == 200 and r.json():
rec = r.json()[0]; owner = rec.get('ownername','').strip(); ...;
if owner: return owner, addr` — `none` when the status is not 200, the
record list is empty, or the stripped owner name is empty (the source then
falls through to the fallback dataset). -/
def plutoOwner (r : SodaResponse) : Option (List Char × List Char) :=
  if r.status = 200 then
    match r.records.head? with
    | some rec =>
      let owner := pyStrip rec.ownername
      if owner.isEmpty then none else some (owner, plutoAddr rec)
    | none => none
  else none

/-- Model of `lookup_owner_from_bbl(bbl_str)`: empty key gives
`(None, None)`; otherwise decompose the key once and query the primary
(MapPLUTO) dataset and, on any miss, the fallback (property assessment)
dataset with the same `(borocode, block, lot)` parameters.  The datasets are
oracles from the decomposed key to a response; `.error` stands for a raised
transport error, handled by the enclosing `except` as `(None, None)` (a
primary raise skips the fallback, as in the source's single `try`). -/
def lookup_owner_from_bbl
    (primary fallback : Char × Nat × Nat → Except Unit SodaResponse)
    (bbl : List Char) : Option (List Char) × Option (List Char) :=
  if bbl.isEmpty then (none, none)
  else
    let key := bblDecompose bbl
    match primary key with
    | .error _ => (none, none)
    | .ok r =>
      match plutoOwner r with
      | some p => (some p.1, some p.2)
      | none =>
        match fallback key with
        | .error _ => (none, none)
        | .ok r2 =>
          match plutoOwner r2 with
          | some p => (some p.1, some p.2)
          | none => (none, none)

/-- The per-lead enrichment step of `check_hpd_violations` (and DOB/ECB):
`dos_info = lookup_ny_dos(owner_name) if owner_name else None` — the
business-registry resolution is invoked exactly when the owner name is
present and nonempty. -/
def hpdDosAttempt (owner : Option (List Char)) : Bool :=
  match owner with
  | some o => !o.isEmpty
  | none => false

/-! ## NY DOS business-entity lookup -/

/-- BUSINESS_SUFFIXES, verbatim from the source. -/
def BUSINESS_SUFFIXES : List (List Char) :=
  ["LLC".toList, "L.L.C".toList, "INC".toList, "CORP".toList, "CO.".toList,
   " CO ".toList, "REALTY".toList, "PROPERTIES".toList, "PROPERTY".toList,
   "HOLDINGS".toList, "ASSOCIATES".toList, "PARTNERS".toList, "LP".toList,
   "L.P".toList, "LLP".toList, "REAL ESTATE".toList, "MGMT".toList,
   "MANAGEMENT".toList, "GROUP".toList, "ENTERPRISES".toList,
   "VENTURES".toList, "TRUST".toList, "FUND".toList]

/-- Python truthiness of an optional string (`if not name: ...`). -/
def pyTruthy : Option (List Char) → Bool
  | none => false
  | some s => !s.isEmpty

/-- Model of `is_business_entity(name)`: `if not name: return False;
return any(suffix in name.upper() for suffix in BUSINESS_SUFFIXES)`. -/
def is_business_entity (name : Option (List Char)) : Bool :=
  if !pyTruthy name then false
  else BUSINESS_SUFFIXES.any (fun suffix => strContains (pyUpper (name.getD [])) suffix)

/-- The stop-word tuple of `lookup_ny_dos`:
`('LLC','INC','CORP','LLP','LP','THE','OF','AND')`. -/
def DOS_STOPWORDS : List (List Char) :=
  ["LLC".toList, "INC".toList, "CORP".toList, "LLP".toList, "LP".toList,
   "THE".toList, "OF".toList, "AND".toList]

/-- The significant words of `lookup_ny_dos`:
`words = [w for w in entity_name.upper().strip().split() if w not in (...)]`. -/
def dosWords (name : List Char) : List (List Char) :=
  (splitWs (pyStrip (pyUpper name))).filter (fun w => !DOS_STOPWORDS.contains w)

/-- The search text: `' '.join(words[:2]) if words else search_name[:20]`. -/
def dosShort (name : List Char) : List Char :=
  let search_name := pyStrip (pyUpper name)
  let words := dosWords name
  if words.isEmpty then search_name.take 20 else joinSpace (words.take 2)

/-- The registry request the source builds:
`params = {'$q': short, '$limit': 5, '$order': 'dos_id DESC'}`. -/
structure DosQuery where
  q : List Char
  limit : Nat
  order : List Char
deriving DecidableEq

def dosBuildQuery (name : List Char) : DosQuery :=
  ⟨dosShort name, 5, "dos_id DESC".toList⟩

/-- One registry result, restricted to the fields the source reads. -/
structure DosRecord where
  current_entity_name : List Char
  entity_type : List Char
  entity_status : List Char
  dos_id : List Char
  agent_name : List Char
  agent_addr1 : List Char
  agent_city : List Char
  agent_state : List Char
  agent_zip : List Char
  office_addr : List Char
  office_city : List Char
  office_state : List Char
  office_zip : List Char
deriving DecidableEq

/-- The match test of the selection loop:
`words and words[0] in result.get('current_entity_name','').upper()`. -/
def dosMatchTest (words : List (List Char)) (r : DosRecord) : Bool :=
  !words.isEmpty && strContains (pyUpper r.current_entity_name) (words.headD [])

/-- The selection loop: take the first result passing `dosMatchTest`
(`for result in results: ... break`), else `rec = results[0]`. -/
def dosSelect (words : List (List Char)) (results : List DosRecord) :
    Option DosRecord :=
  match results.find? (dosMatchTest words) with
  | some r => some r
  | none => results.head?

/-- The enrichment record `lookup_ny_dos` returns. -/
structure DosInfo where
  entity_type : List Char
  entity_status : List Char
  agent : Option (List Char)
  office : Option (List Char)
  dos_url : Option (List Char)
deriving DecidableEq

def dosUrlOf (dos_id : List Char) : List Char :=
  "https://apps.dos.ny.gov/publicInquiry/EntitySearch?SEARCH_TYPE=1&DOS_ID=".toList
    ++ dos_id

/-- Model of `lookup_ny_dos(entity_name)`: the gate
`if not entity_name or not is_business_entity(entity_name): return None`,
then the query build, the `$limit`/`$order` request against the registry
oracle, the no-result guard, the selection loop, and the field assembly
(comma-joined nonempty agent and office parts, URL from `dos_id`,
`None` when entity type, agent and office are all empty). -/
def lookup_ny_dos (registry : DosQuery → Except Unit (Nat × List DosRecord))
    (entity_name : Option (List Char)) : Option DosInfo :=
  if !(pyTruthy entity_name && is_business_entity entity_name) then none
  else
    let name := entity_name.getD []
    let words := dosWords name
    match registry (dosBuildQuery name) with
    | .error _ => none
    | .ok qr =>
      if qr.1 ≠ 200 ∨ qr.2.isEmpty then none
      else
        match dosSelect words qr.2 with
        | none => none
        | some rec =>
          let entity_type := pyStrip rec.entity_type
          let entity_status := pyStrip rec.entity_status
          let dos_id := pyStrip rec.dos_id
          let agent_full := joinCommaNonempty [pyStrip rec.agent_name,
            pyStrip rec.agent_addr1, pyStrip rec.agent_city,
            pyStrip rec.agent_state, pyStrip rec.agent_zip]
          let office_full := joinCommaNonempty [pyStrip rec.office_addr,
            pyStrip rec.office_city, pyStrip rec.office_state,
            pyStrip rec.office_zip]
          if entity_type.isEmpty ∧ agent_full.isEmpty ∧ office_full.isEmpty then none
          else some ⟨entity_type, entity_status,
            if agent_full.isEmpty then none else some agent_full,
            if office_full.isEmpty then none else some office_full,
            if dos_id.isEmpty then none else some (dosUrlOf dos_id)⟩

/-! ## Helper lemmas -/

/-- The substring test agrees with the mathematical infix relation. -/
theorem strContains_iff (hay needle : List Char) :
    strContains hay needle = true ↔ needle <:+: hay := by
  induction hay with
  | nil =>
    simp [strContains, List.isEmpty_iff, List.infix_nil]
  | cons c t ih =>
    simp [strContains, ih, List.infix_cons_iff, List.isPrefixOf_iff_prefix]

/-! ## Claims -/

/-- C3: persisting trims a source's identifier sequence to the last `cap`
entries: once more than `cap` identifiers have been inserted, exactly the
`cap` most recent remain, the evicted ones are exactly the oldest prefix,
and the survivors keep their insertion order (they are the final segment of
the sequence, unchanged). -/
theorem C3_retention (cap : Nat) (l : List String) (h0 : 0 < cap)
    (hover : cap < l.length) :
    (lastN cap l).length = cap ∧
    lastN cap l = l.drop (l.length - cap) ∧
    l.take (l.length - cap) ++ lastN cap l = l := by
  have hne : cap ≠ 0 := Nat.pos_iff_ne_zero.mp h0
  unfold lastN
  rw [if_neg hne]
  refine ⟨?_, rfl, List.take_append_drop _ _⟩
  rw [List.length_drop]
  omega

/-- Witness for C3 at `cap = 2`, sequence `["a","b","c"]`. -/
theorem C3_retention_witness :
    (lastN 2 ["a","b","c"]).length = 2 ∧
    lastN 2 ["a","b","c"] = List.drop (["a","b","c"].length - 2) ["a","b","c"] ∧
    List.take (["a","b","c"].length - 2) ["a","b","c"] ++ lastN 2 ["a","b","c"] =
      ["a","b","c"] :=
  C3_retention 2 ["a","b","c"] (by decide) (by decide)

/-- C4: `send_email_alert` makes no delivery attempt exactly when every
adapter contributed zero new leads; with at least one new lead anywhere,
the rendered document's delivery is attempted. -/
theorem C4_notifier_iff {α : Type} :
    ∀ hpd dohmh c311 dob ecb craigslist reddit : List α,
      send_email_alert hpd dohmh c311 dob ecb craigslist reddit = none ↔
        (hpd = [] ∧ dohmh = [] ∧ c311 = [] ∧ dob = [] ∧ ecb = [] ∧
          craigslist = [] ∧ reddit = []) := by
  intro hpd dohmh c311 dob ecb craigslist reddit
  simp only [send_email_alert]
  split
  next h =>
    constructor
    · intro _
      refine ⟨?_, ?_, ?_, ?_, ?_, ?_, ?_⟩ <;> rw [← List.length_eq_zero] <;> omega
    · intro _
      rfl
  next h =>
    constructor
    · intro hc
      exact absurd hc (by simp)
    · rintro ⟨h1, h2, h3, h4, h5, h6, h7⟩
      subst h1 h2 h3 h4 h5 h6 h7
      simp at h

/-- C7: the business-name heuristic holds exactly when the uppercased name
has one of the fixed corporate suffixes/keywords as a substring; it accepts
"123 Main St Realty LLC" and rejects "John Smith", the empty name and the
absent name. -/
theorem C7_is_business_entity :
    (∀ name : List Char,
       is_business_entity (some name) = true ↔
         ∃ suffix ∈ BUSINESS_SUFFIXES, suffix <:+: pyUpper name) ∧
    is_business_entity (some "123 Main St Realty LLC".toList) = true ∧
    is_business_entity (some "John Smith".toList) = false ∧
    is_business_entity (some []) = false ∧
    is_business_entity none = false := by
  refine ⟨?_, by decide, by decide, by decide, by decide⟩
  intro name
  by_cases h : name = []
  · subst h
    constructor
    · intro hh
      exact absurd hh (by decide)
    · rintro ⟨s, hs, hinf⟩
      rw [pyUpper, List.map_nil, List.infix_nil] at hinf
      subst hinf
      revert hs
      decide
  · simp [is_business_entity, pyTruthy, List.isEmpty_iff, h, List.any_eq_true,
      strContains_iff]

/-- A decimal digit character has code point between 48 and 57. -/
theorem isDigit_le {c : Char} (h : c.isDigit = true) :
    48 ≤ c.toNat ∧ c.toNat ≤ 57 := by
  simp only [Char.isDigit, Bool.and_eq_true, decide_eq_true_eq, ge_iff_le] at h
  obtain ⟨h1, h2⟩ := h
  rw [UInt32.le_def] at h1 h2
  unfold Char.toNat
  exact ⟨h1, h2⟩

/-- Leading zero padding does not change the parsed integer. -/
theorem intOfDigits_replicate_zero (k : Nat) (l : List Char) :
    intOfDigits (List.replicate k '0' ++ l) = intOfDigits l := by
  induction k with
  | zero => rfl
  | succ k ih =>
    rw [List.replicate_succ, List.cons_append]
    unfold intOfDigits at ih ⊢
    rw [List.foldl_cons]
    have h0 : 10 * 0 + ('0'.toNat - 48) = 0 := by decide
    rw [h0]
    exact ih

/-- On a ten-digit string, the source's slices parse to the arithmetic
decomposition of the whole number: digits 2-6 are the middle five decimal
digits and digits 7-10 the low four. -/
theorem bblDigitsSplit (t : List Char) (hlen : t.length = 10)
    (hdig : ∀ c ∈ t, c.isDigit = true) :
    (t.headD '0').toNat - 48 = intOfDigits t / 1000000000 ∧
    intOfDigits ((t.drop 1).take 5) = intOfDigits t / 10000 % 100000 ∧
    intOfDigits ((t.drop 6).take 4) = intOfDigits t % 10000 := by
  rcases t with _ | ⟨c0, t⟩; · simp at hlen
  rcases t with _ | ⟨c1, t⟩; · simp at hlen
  rcases t with _ | ⟨c2, t⟩; · simp at hlen
  rcases t with _ | ⟨c3, t⟩; · simp at hlen
  rcases t with _ | ⟨c4, t⟩; · simp at hlen
  rcases t with _ | ⟨c5, t⟩; · simp at hlen
  rcases t with _ | ⟨c6, t⟩; · simp at hlen
  rcases t with _ | ⟨c7, t⟩; · simp at hlen
  rcases t with _ | ⟨c8, t⟩; · simp at hlen
  rcases t with _ | ⟨c9, t⟩; · simp at hlen
  have ht : t = [] := by
    simp at hlen
    exact hlen
  subst ht
  have h0 := isDigit_le (hdig c0 (by simp))
  have h1 := isDigit_le (hdig c1 (by simp))
  have h2 := isDigit_le (hdig c2 (by simp))
  have h3 := isDigit_le (hdig c3 (by simp))
  have h4 := isDigit_le (hdig c4 (by simp))
  have h5 := isDigit_le (hdig c5 (by simp))
  have h6 := isDigit_le (hdig c6 (by simp))
  have h7 := isDigit_le (hdig c7 (by simp))
  have h8 := isDigit_le (hdig c8 (by simp))
  have h9 := isDigit_le (hdig c9 (by simp))
  simp only [intOfDigits, List.drop, List.take, List.headD, List.foldl_cons,
    List.foldl_nil]
  omega

/-- C5: for every parcel key (a digit string of at most ten characters),
`lookup_owner_from_bbl` zero-pads it to ten characters, takes the borough
from the first character, and parses the next five and final four digits as
integers, which strips their leading zeros: the three components are exactly
the base-ten decomposition of the key's value into its top digit, middle
five digits and low four digits. -/
theorem C5_bbl_decompose (bbl : List Char) (hlen : bbl.length ≤ 10)
    (hdig : ∀ c ∈ bbl, c.isDigit = true) :
    (bblDecompose bbl).1 = (pyZfill 10 bbl).headD '0' ∧
    (bblDecompose bbl).1.toNat - 48 = intOfDigits bbl / 1000000000 ∧
    (bblDecompose bbl).2.1 = intOfDigits bbl / 10000 % 100000 ∧
    (bblDecompose bbl).2.2 = intOfDigits bbl % 10000 := by
  have hzlen : (pyZfill 10 bbl).length = 10 := by
    simp only [pyZfill, List.length_append, List.length_replicate]
    omega
  have hzdig : ∀ c ∈ pyZfill 10 bbl, c.isDigit = true := by
    intro c hc
    rcases List.mem_append.mp hc with h | h
    · rcases List.eq_of_mem_replicate h
      decide
    · exact hdig c h
  have hzval : intOfDigits (pyZfill 10 bbl) = intOfDigits bbl :=
    intOfDigits_replicate_zero _ _
  have core := bblDigitsSplit (pyZfill 10 bbl) hzlen hzdig
  rw [hzval] at core
  exact ⟨rfl, core.1, core.2.1, core.2.2⟩

/-- Witness for C5: the key "3012340045" decomposes to borough '3',
block 1234, lot 45. -/
theorem C5_bbl_decompose_witness :
    (bblDecompose "3012340045".toList).1 = '3' ∧
    (bblDecompose "3012340045".toList).2.1 = 1234 ∧
    (bblDecompose "3012340045".toList).2.2 = 45 := by
  have h := C5_bbl_decompose "3012340045".toList (by decide) (by decide)
  refine ⟨by decide, ?_, ?_⟩
  · rw [h.2.2.1]
    decide
  · rw [h.2.2.2]
    decide

/-- C6: when the primary dataset yields no usable owner (non-200 status,
empty result, or empty stripped owner name), the fallback dataset is queried
with the same decomposed (borough, block, lot) key, and a fallback hit with
stripped owner name "ABC Realty LLC" makes that name and the record's
assembled mailing address the lead's owner info; the enrichment step then
invokes the business-registry resolution on that owner (the name is truthy),
whose heuristic gate the name passes. -/
theorem C6_fallback_owner
    (primary fallback : Char × Nat × Nat → Except Unit SodaResponse)
    (bbl : List Char) (r1 r2 : SodaResponse) (rec : PlutoRecord)
    (hbbl : bbl.isEmpty = false)
    (h1 : primary (bblDecompose bbl) = .ok r1)
    (hmiss : plutoOwner r1 = none)
    (h2 : fallback (bblDecompose bbl) = .ok r2)
    (hstat : r2.status = 200)
    (hrec : r2.records.head? = some rec)
    (hown : pyStrip rec.ownername = "ABC Realty LLC".toList) :
    lookup_owner_from_bbl primary fallback bbl =
      (some ("ABC Realty LLC".toList), some (plutoAddr rec)) ∧
    hpdDosAttempt (some ("ABC Realty LLC".toList)) = true ∧
    (pyTruthy (some ("ABC Realty LLC".toList)) &&
      is_business_entity (some ("ABC Realty LLC".toList))) = true := by
  refine ⟨?_, by decide, by decide⟩
  have hne : (("ABC Realty LLC".toList : List Char)).isEmpty = false := by decide
  simp only [lookup_owner_from_bbl, hbbl, Bool.false_eq_true, if_false, h1,
    hmiss, h2]
  simp [plutoOwner, hstat, hrec, hown, hne]

/-- A concrete fallback-dataset record for the C6 witness. -/
def abcRec : PlutoRecord :=
  ⟨" ABC Realty LLC ".toList, "1 Main St".toList, "Brooklyn".toList,
    "NY".toList, "11201".toList⟩

/-- Witness for C6: a 404 primary, a fallback hit whose owner strips to
"ABC Realty LLC". -/
theorem C6_fallback_owner_witness :
    lookup_owner_from_bbl (fun _ => .ok ⟨404, []⟩) (fun _ => .ok ⟨200, [abcRec]⟩)
      "3012340045".toList =
      (some ("ABC Realty LLC".toList), some (plutoAddr abcRec)) ∧
    hpdDosAttempt (some ("ABC Realty LLC".toList)) = true ∧
    (pyTruthy (some ("ABC Realty LLC".toList)) &&
      is_business_entity (some ("ABC Realty LLC".toList))) = true :=
  C6_fallback_owner (fun _ => .ok ⟨404, []⟩) (fun _ => .ok ⟨200, [abcRec]⟩)
    "3012340045".toList ⟨404, []⟩ ⟨200, [abcRec]⟩ abcRec
    (by decide) rfl (by decide) rfl rfl rfl (by decide)

/-- C8: the registry query uses the first two significant words of the
uppercased, stop-word-stripped name (or the name's first 20 characters when
none remain), requests 5 results ordered by descending `dos_id`; the match
test holds exactly when the first significant word is a substring of the
result's uppercased entity name, the selection takes the first matching
result, and with no matching result it falls back to the first result. -/
theorem C8_dos_query_select :
    (∀ name : List Char, (dosBuildQuery name).limit = 5 ∧
        (dosBuildQuery name).order = "dos_id DESC".toList) ∧
    (∀ name : List Char, dosWords name ≠ [] →
        (dosBuildQuery name).q = joinSpace ((dosWords name).take 2)) ∧
    (∀ name : List Char, dosWords name = [] →
        (dosBuildQuery name).q = (pyStrip (pyUpper name)).take 20) ∧
    (∀ (words : List (List Char)) (r : DosRecord), dosMatchTest words r = true ↔
        words ≠ [] ∧ (words.headD []) <:+: pyUpper r.current_entity_name) ∧
    (∀ (words : List (List Char)) (pre : List DosRecord) (r : DosRecord)
        (post : List DosRecord),
        (∀ rp ∈ pre, dosMatchTest words rp = false) → dosMatchTest words r = true →
        dosSelect words (pre ++ r :: post) = some r) ∧
    (∀ (words : List (List Char)) (results : List DosRecord),
        (∀ rp ∈ results, dosMatchTest words rp = false) →
        dosSelect words results = results.head?) := by
  refine ⟨fun name => ⟨rfl, rfl⟩, ?_, ?_, ?_, ?_, ?_⟩
  · intro name h
    simp [dosBuildQuery, dosShort, List.isEmpty_iff, h]
  · intro name h
    simp [dosBuildQuery, dosShort, List.isEmpty_iff, h]
  · intro words r
    simp [dosMatchTest, List.isEmpty_iff, strContains_iff]
  · intro words pre r post hpre hr
    have hpre2 : List.find? (dosMatchTest words) pre = none :=
      List.find?_eq_none.mpr (fun x hx => by simp [hpre x hx])
    have hfind : List.find? (dosMatchTest words) (pre ++ r :: post) = some r := by
      rw [List.find?_append, hpre2]
      simp [List.find?_cons, hr]
    simp [dosSelect, hfind]
  · intro words results h
    have : List.find? (dosMatchTest words) results = none :=
      List.find?_eq_none.mpr (by intro x hx; simp [h x hx])
    simp [dosSelect, this]

/-- Exact result of the HPD adapter when its store write succeeds. -/
theorem adapter_trace_hpd (env : Env) (st : RunState)
    (hsf : env.saveFails st.saveCount = false) :
    check_hpd_violations env st =
      .ok ((dedupAppendNE st.file.hpd env.hpdIds).1,
        ⟨{ st.file with hpd := lastN 2000 (dedupAppendNE st.file.hpd env.hpdIds).2 },
          st.saveCount + 1,
          st.trace ++ [.load .hpd, .fetch .hpd, .save .hpd]⟩) := by
  simp [check_hpd_violations, addEvents, save_seen_leads, hsf]

/-- Exact result of the DOHMH adapter when its store write succeeds. -/
theorem adapter_trace_dohmh (env : Env) (st : RunState)
    (hsf : env.saveFails st.saveCount = false) :
    check_dohmh_violations env st =
      .ok ((dedupAppendAll st.file.dohmh env.dohmhIds).1,
        ⟨{ st.file with dohmh := lastN 2000 (dedupAppendAll st.file.dohmh env.dohmhIds).2 },
          st.saveCount + 1,
          st.trace ++ [.load .dohmh, .fetch .dohmh, .save .dohmh]⟩) := by
  simp [check_dohmh_violations, addEvents, save_seen_leads, hsf]

/-- Exact result of the 311 adapter when its store write succeeds. -/
theorem adapter_trace_c311 (env : Env) (st : RunState)
    (hsf : env.saveFails st.saveCount = false) :
    check_311_complaints env st =
      .ok ((dedupAppendNE st.file.c311 env.c311Ids).1,
        ⟨{ st.file with c311 := lastN 2000 (dedupAppendNE st.file.c311 env.c311Ids).2 },
          st.saveCount + 1,
          st.trace ++ [.load .c311, .fetch .c311, .save .c311]⟩) := by
  simp [check_311_complaints, addEvents, save_seen_leads, hsf]

/-- Exact result of the DOB adapter on a 200 status and a successful write. -/
theorem adapter_trace_dob (env : Env) (st : RunState)
    (hsf : env.saveFails st.saveCount = false) (hds : env.dobStatus = 200) :
    check_dob_violations env st =
      .ok ((dedupAppendNE st.file.dob env.dobIds).1,
        ⟨{ st.file with dob := lastN 2000 (dedupAppendNE st.file.dob env.dobIds).2 },
          st.saveCount + 1,
          st.trace ++ [.load .dob, .fetch .dob, .save .dob]⟩) := by
  simp [check_dob_violations, addEvents, save_seen_leads, hsf, hds]

/-- Exact result of the ECB adapter on a 200 status and a successful write. -/
theorem adapter_trace_ecb (env : Env) (st : RunState)
    (hsf : env.saveFails st.saveCount = false) (hes : env.ecbStatus = 200) :
    check_ecb_violations env st =
      .ok ((dedupAppendNE st.file.ecb env.ecbIds).1,
        ⟨{ st.file with ecb := lastN 2000 (dedupAppendNE st.file.ecb env.ecbIds).2 },
          st.saveCount + 1,
          st.trace ++ [.load .ecb, .fetch .ecb, .save .ecb]⟩) := by
  simp [check_ecb_violations, addEvents, save_seen_leads, hsf, hes]

/-- Exact result of the Craigslist adapter when its store write succeeds. -/
theorem adapter_trace_craigslist (env : Env) (st : RunState)
    (hsf : env.saveFails st.saveCount = false) :
    check_craigslist env st =
      .ok ((dedupAppendAll st.file.craigslist env.craigslistIds).1,
        ⟨{ st.file with craigslist := lastN 1000 (dedupAppendAll st.file.craigslist env.craigslistIds).2 },
          st.saveCount + 1,
          st.trace ++ [.load .craigslist, .fetch .craigslist, .save .craigslist]⟩) := by
  simp [check_craigslist, addEvents, save_seen_leads, hsf]

/-- Exact result of the Reddit adapter when its store write succeeds. -/
theorem adapter_trace_reddit (env : Env) (st : RunState)
    (hsf : env.saveFails st.saveCount = false) :
    check_reddit env st =
      .ok ((dedupAppendNE st.file.reddit env.redditIds).1,
        ⟨{ st.file with reddit := lastN 1000 (dedupAppendNE st.file.reddit env.redditIds).2 },
          st.saveCount + 1,
          st.trace ++ [.load .reddit, .fetch .reddit, .save .reddit]⟩) := by
  simp [check_reddit, addEvents, save_seen_leads, hsf]

/-- The load/fetch/save pattern a fully completed run leaves in its trace. -/
def runBlocks : List Event :=
  [.load .hpd, .fetch .hpd, .save .hpd,
   .load .dohmh, .fetch .dohmh, .save .dohmh,
   .load .c311, .fetch .c311, .save .c311,
   .load .dob, .fetch .dob, .save .dob,
   .load .ecb, .fetch .ecb, .save .ecb,
   .load .craigslist, .fetch .craigslist, .save .craigslist,
   .load .reddit, .fetch .reddit, .save .reddit]

/-- The notify step appends a notify event exactly when the total is nonzero. -/
theorem notify_match (st : RunState)
    (hpd dohmh c311 dob ecb craigslist reddit : List String) :
    notifyStep st (send_email_alert hpd dohmh c311 dob ecb craigslist reddit) =
      { st with trace := st.trace ++
          (if hpd.length + dohmh.length + c311.length + dob.length + ecb.length +
              craigslist.length + reddit.length = 0 then [] else [Event.notify]) } := by
  by_cases h : hpd.length + dohmh.length + c311.length + dob.length + ecb.length +
      craigslist.length + reddit.length = 0
  · simp [notifyStep, send_email_alert, h, addEvents]
  · simp [notifyStep, send_email_alert, h, addEvents]

/-- C1 (amended): in a run where every store write succeeds and the DOB and
ECB fetches return 200, the run completes and its trace is exactly the seven
per-adapter load/fetch/save blocks (a store write at the end of every
adapter, before the next adapter's load — seven writes, not one at run end)
followed by the notify event when the total is nonzero. -/
theorem C1_amended_trace (env : Env)
    (hsf : ∀ k, env.saveFails k = false)
    (hds : env.dobStatus = 200) (hes : env.ecbStatus = 200) :
    (∃ st total, main env = .ok (st, total)) ∧
    (∀ st total, main env = .ok (st, total) →
      (st.trace.filter isSaveEvent).length = 7 ∧
      st.trace = runBlocks ++ (if total = 0 then [] else [Event.notify])) := by
  constructor
  · simp [main, adapter_trace_hpd, adapter_trace_dohmh, adapter_trace_c311,
      adapter_trace_dob, adapter_trace_ecb, adapter_trace_craigslist,
      adapter_trace_reddit, hsf, hds, hes, Except.bind, Except.instMonad, bind,
      pure, Except.pure]
  · intro st total heq
    simp [main, adapter_trace_hpd, adapter_trace_dohmh, adapter_trace_c311,
      adapter_trace_dob, adapter_trace_ecb, adapter_trace_craigslist,
      adapter_trace_reddit, hsf, hds, hes, Except.bind, Except.instMonad, bind,
      pure, Except.pure] at heq
    obtain ⟨hst, htot⟩ := heq
    subst hst
    rw [notify_match, htot]
    by_cases h : total = 0 <;>
      simp [h, runBlocks, isSaveEvent, List.filter]

/-- The default store contents: every source starts empty. -/
def emptySeen : SeenLeads := ⟨[], [], [], [], [], [], []⟩

/-- A fully successful run environment with no candidate records. -/
def envC1 : Env := ⟨emptySeen, [], [], [], [], [], [], [], 200, 200, fun _ => false⟩

/-- Counterexample to C1 as stated: in a concrete fully successful run the
store is written seven times, not exactly once, and the first write (trace
index 2, at the end of the HPD adapter) happens before the Reddit adapter
fetches (trace index 19) — a mid-run write, not a single write at run end. -/
theorem C1_counterexample :
    ((runTraceOf envC1).filter isSaveEvent).length = 7 ∧
    ¬ ((runTraceOf envC1).filter isSaveEvent).length = 1 ∧
    (runTraceOf envC1).get? 2 = some (Event.save Source.hpd) ∧
    (runTraceOf envC1).get? 19 = some (Event.fetch Source.reddit) ∧
    runAborted envC1 = false := by decide

/-- An environment whose first store write raises, with one new HPD lead. -/
def envC2 : Env := ⟨emptySeen, ["hpd1"], [], [], [], [], [], [], 200, 200, fun k => k == 0⟩

/-- Counterexample to C2 as stated: with the first store write raising and a
new HPD lead available, the run aborts — the trace stops at the HPD load and
fetch, no later adapter fetches, and no notification is attempted. -/
theorem C2_counterexample :
    runAborted envC2 = true ∧
    runTraceOf envC2 = [Event.load Source.hpd, Event.fetch Source.hpd] ∧
    Event.notify ∉ runTraceOf envC2 ∧
    Event.fetch Source.dohmh ∉ runTraceOf envC2 ∧
    envC2.hpdIds ≠ [] := by decide

/-- C2 (amended): a raise in the first store write propagates uncaught out
of the adapter and out of `main`: the run aborts with only the HPD load and
fetch in its trace, no store write recorded, and no notification attempt. -/
theorem C2_amended_abort (env : Env) (hsf0 : env.saveFails 0 = true) :
    ∃ st, main env = .error st ∧
      st.trace = [Event.load Source.hpd, Event.fetch Source.hpd] ∧
      Event.notify ∉ st.trace ∧
      (st.trace.filter isSaveEvent).length = 0 := by
  simp [main, check_hpd_violations, save_seen_leads, addEvents, hsf0,
    Except.bind, Except.instMonad, bind, pure, Except.pure, isSaveEvent]

/-- Witness for the amended C2 at the concrete failing environment. -/
theorem C2_amended_abort_witness :
    ∃ st, main envC2 = .error st ∧
      st.trace = [Event.load Source.hpd, Event.fetch Source.hpd] ∧
      Event.notify ∉ st.trace ∧
      (st.trace.filter isSaveEvent).length = 0 :=
  C2_amended_abort envC2 rfl

/-- C9: the retention cap is source-dependent: at persist the craigslist and
reddit sequences are trimmed to their last 1000 entries, while hpd, dohmh,
311, dob and ecb are trimmed to their last 2000 entries. -/
theorem C9_retention_caps (env : Env) (st : RunState)
    (hsf : env.saveFails st.saveCount = false)
    (hds : env.dobStatus = 200) (hes : env.ecbStatus = 200) :
    (∃ out st1, check_hpd_violations env st = .ok (out, st1) ∧
        st1.file.hpd = lastN 2000 (dedupAppendNE st.file.hpd env.hpdIds).2) ∧
    (∃ out st1, check_dohmh_violations env st = .ok (out, st1) ∧
        st1.file.dohmh = lastN 2000 (dedupAppendAll st.file.dohmh env.dohmhIds).2) ∧
    (∃ out st1, check_311_complaints env st = .ok (out, st1) ∧
        st1.file.c311 = lastN 2000 (dedupAppendNE st.file.c311 env.c311Ids).2) ∧
    (∃ out st1, check_dob_violations env st = .ok (out, st1) ∧
        st1.file.dob = lastN 2000 (dedupAppendNE st.file.dob env.dobIds).2) ∧
    (∃ out st1, check_ecb_violations env st = .ok (out, st1) ∧
        st1.file.ecb = lastN 2000 (dedupAppendNE st.file.ecb env.ecbIds).2) ∧
    (∃ out st1, check_craigslist env st = .ok (out, st1) ∧
        st1.file.craigslist = lastN 1000 (dedupAppendAll st.file.craigslist env.craigslistIds).2) ∧
    (∃ out st1, check_reddit env st = .ok (out, st1) ∧
        st1.file.reddit = lastN 1000 (dedupAppendNE st.file.reddit env.redditIds).2) := by
  refine ⟨?_, ?_, ?_, ?_, ?_, ?_, ?_⟩
  · refine ⟨_, _, adapter_trace_hpd env st hsf, ?_⟩
    simp only []
  · refine ⟨_, _, adapter_trace_dohmh env st hsf, ?_⟩
    simp only []
  · refine ⟨_, _, adapter_trace_c311 env st hsf, ?_⟩
    simp only []
  · refine ⟨_, _, adapter_trace_dob env st hsf hds, ?_⟩
    simp only []
  · refine ⟨_, _, adapter_trace_ecb env st hsf hes, ?_⟩
    simp only []
  · refine ⟨_, _, adapter_trace_craigslist env st hsf, ?_⟩
    simp only []
  · refine ⟨_, _, adapter_trace_reddit env st hsf, ?_⟩
    simp only []

/-- Witness for C9 at a concrete environment and state. -/
theorem C9_retention_caps_witness :
    (∃ out st1, check_hpd_violations envC1 ⟨emptySeen, 0, []⟩ = .ok (out, st1) ∧
        st1.file.hpd = lastN 2000 (dedupAppendNE emptySeen.hpd envC1.hpdIds).2) ∧
    (∃ out st1, check_dohmh_violations envC1 ⟨emptySeen, 0, []⟩ = .ok (out, st1) ∧
        st1.file.dohmh = lastN 2000 (dedupAppendAll emptySeen.dohmh envC1.dohmhIds).2) ∧
    (∃ out st1, check_311_complaints envC1 ⟨emptySeen, 0, []⟩ = .ok (out, st1) ∧
        st1.file.c311 = lastN 2000 (dedupAppendNE emptySeen.c311 envC1.c311Ids).2) ∧
    (∃ out st1, check_dob_violations envC1 ⟨emptySeen, 0, []⟩ = .ok (out, st1) ∧
        st1.file.dob = lastN 2000 (dedupAppendNE emptySeen.dob envC1.dobIds).2) ∧
    (∃ out st1, check_ecb_violations envC1 ⟨emptySeen, 0, []⟩ = .ok (out, st1) ∧
        st1.file.ecb = lastN 2000 (dedupAppendNE emptySeen.ecb envC1.ecbIds).2) ∧
    (∃ out st1, check_craigslist envC1 ⟨emptySeen, 0, []⟩ = .ok (out, st1) ∧
        st1.file.craigslist = lastN 1000 (dedupAppendAll emptySeen.craigslist envC1.craigslistIds).2) ∧
    (∃ out st1, check_reddit envC1 ⟨emptySeen, 0, []⟩ = .ok (out, st1) ∧
        st1.file.reddit = lastN 1000 (dedupAppendNE emptySeen.reddit envC1.redditIds).2) :=
  C9_retention_caps envC1 ⟨emptySeen, 0, []⟩ rfl rfl rfl

/-- C10: the delivered document renders at most the first 15 leads for each
of HPD, DOB, ECB, DOHMH and 311 and at most the first 10 for Craigslist and
Reddit (each section shows a prefix of its lead list of length
`min cap length`), while the subject/headline total counts every new lead;
when any source exceeds its cap the stated total strictly exceeds the number
of leads actually rendered. -/
theorem C10_render_limits {α : Type}
    (hpd dohmh c311 dob ecb craigslist reddit : List α) (m : EmailMessage α)
    (hm : send_email_alert hpd dohmh c311 dob ecb craigslist reddit = some m) :
    m.subjectTotal = hpd.length + dohmh.length + c311.length + dob.length +
      ecb.length + craigslist.length + reddit.length ∧
    m.hpdShown <+: hpd ∧ m.hpdShown.length = min 15 hpd.length ∧
    m.dobShown <+: dob ∧ m.dobShown.length = min 15 dob.length ∧
    m.ecbShown <+: ecb ∧ m.ecbShown.length = min 15 ecb.length ∧
    m.dohmhShown <+: dohmh ∧ m.dohmhShown.length = min 15 dohmh.length ∧
    m.c311Shown <+: c311 ∧ m.c311Shown.length = min 15 c311.length ∧
    m.craigslistShown <+: craigslist ∧
    m.craigslistShown.length = min 10 craigslist.length ∧
    m.redditShown <+: reddit ∧ m.redditShown.length = min 10 reddit.length ∧
    ((15 < hpd.length ∨ 15 < dob.length ∨ 15 < ecb.length ∨ 15 < dohmh.length ∨
        15 < c311.length ∨ 10 < craigslist.length ∨ 10 < reddit.length) →
      m.hpdShown.length + m.dobShown.length + m.ecbShown.length +
        m.dohmhShown.length + m.c311Shown.length + m.craigslistShown.length +
        m.redditShown.length < m.subjectTotal) := by
  simp only [send_email_alert] at hm
  split at hm
  · exact absurd hm (by simp)
  · obtain rfl : _ = m := Option.some.inj hm
    refine ⟨rfl,
      ⟨hpd.drop 15, List.take_append_drop 15 hpd⟩, by simp [List.length_take],
      ⟨dob.drop 15, List.take_append_drop 15 dob⟩, by simp [List.length_take],
      ⟨ecb.drop 15, List.take_append_drop 15 ecb⟩, by simp [List.length_take],
      ⟨dohmh.drop 15, List.take_append_drop 15 dohmh⟩, by simp [List.length_take],
      ⟨c311.drop 15, List.take_append_drop 15 c311⟩, by simp [List.length_take],
      ⟨craigslist.drop 10, List.take_append_drop 10 craigslist⟩,
      by simp [List.length_take],
      ⟨reddit.drop 10, List.take_append_drop 10 reddit⟩, by simp [List.length_take],
      ?_⟩
    intro hbig
    simp only [List.length_take]
    omega

/-- Witness for the amended C1 at a concrete all-success environment. -/
theorem C1_amended_trace_witness :
    (∃ st total, main envC1 = .ok (st, total)) ∧
    (∀ st total, main envC1 = .ok (st, total) →
      (st.trace.filter isSaveEvent).length = 7 ∧
      st.trace = runBlocks ++ (if total = 0 then [] else [Event.notify])) :=
  C1_amended_trace envC1 (fun _ => rfl) rfl rfl

/-- Witness for C10: sixteen HPD leads yield a subject total of 16 with only
fifteen leads rendered. -/
theorem C10_render_limits_witness :
    ∃ m : EmailMessage String,
      send_email_alert (List.replicate 16 "x") ([] : List String) [] [] [] [] [] =
        some m ∧
      m.subjectTotal = 16 ∧
      m.hpdShown.length + m.dobShown.length + m.ecbShown.length +
        m.dohmhShown.length + m.c311Shown.length + m.craigslistShown.length +
        m.redditShown.length < m.subjectTotal := by
  have hm : send_email_alert (List.replicate 16 "x") ([] : List String) [] [] [] [] [] =
      some ⟨16, (List.replicate 16 "x").take 15, [], [], [], [], [], []⟩ := by decide
  have h := C10_render_limits (List.replicate 16 "x") ([] : List String) [] [] [] [] []
    ⟨16, (List.replicate 16 "x").take 15, [], [], [], [], [], []⟩ hm
  refine ⟨_, hm, ?_, ?_⟩
  · rw [h.1]
    decide
  · have := h.2.2.2.2.2.2.2.2.2.2.2.2.2.2.2 (by left; decide)
    exact this

end LeadMonitor
